import Mathlib

/-!
# Verification of the dredge encrypted secret store

Shallow embedding of the dredge vault core (Go sources): the envelope
crypto (`internal/crypto/crypto.go`), the session cache
(`internal/crypto/session.go`), password verification (`verify` module),
the item store (`storage.go`), the link/spawn/sync engine
(`links.go`, part_014 revision), password rotation (`HandlePasswd`),
trash (`internal/storage/trash.go`) and self-heal
(`internal/selfheal/selfheal.go`).

External library calls are idealized in the standard way:
* Argon2id key derivation is collision-free and deterministic in
  (password, salt): a key is modelled as the pair itself.
* AES-256-GCM is an ideal AEAD: a ciphertext remembers the key, nonce and
  plaintext that sealed it, and opening succeeds exactly when key and
  nonce match.  The byte length of a GCM ciphertext is the plaintext
  length plus the 16-byte tag.
* SHA-256 is collision-free: a hash value is the hashed content wrapped
  in a constructor.
* Filesystem directories are association lists keyed by name; whole-file
  writes replace the entry.  I/O operations that the program handles as
  fallible but that cannot fail in the abstract model (disk-full on
  write, interference with a directory listing, symlink creation) take
  their outcome from an explicit failure-injection record `FailSpec`, so
  every error-handling branch of the source stays reachable.
-/

namespace Dredge

/-! ## Idealized primitives -/

/-- Argon2id key derivation (`argon2.IDKey`): deterministic in
(password, salt) and collision-free, modelled as the argument pair. -/
structure ArgonKey where
  password : String
  salt : List Nat
deriving DecidableEq, Repr

/-- Item type tag (`storage.ItemType`): `"text"` or `"file"`. -/
inductive ItemType where
  | text
  | file
deriving DecidableEq, Repr

/-- `storage.Item`: the decrypted record. Timestamps are abstract clock
values; `content` is the single text payload (`Item.Content.Text`). -/
structure Item where
  title : String
  tags : List String
  type : ItemType
  created : Nat
  modified : Nat
  filename : String
  size : Option Int
  content : String
deriving DecidableEq, Repr

/-- A plaintext payload handed to the cipher: either raw bytes (modelled
as a string, as Go converts `[]byte` and `string` losslessly) or the
TOML encoding of an `Item` (TOML round-trips items, so the encoding is
modelled by the injective constructor). -/
inductive PlainData where
  | str (s : String)
  | item (i : Item)
deriving DecidableEq, Repr

/-- Byte length of a payload, used only for the minimum-size check of
`Decrypt` (any value keeps an envelope produced by `Encrypt` at or above
the 44-byte minimum). -/
def PlainData.byteLen : PlainData → Nat
  | .str s => s.length
  | .item _ => 1

/-- Ideal AES-GCM ciphertext (`gcm.Seal` output): remembers key, nonce
and plaintext. -/
structure GCMCipher where
  key : ArgonKey
  nonce : List Nat
  plaintext : PlainData
deriving DecidableEq, Repr

/-- Byte length of `ciphertext‖tag`: plaintext length plus the 16-byte
GCM auth tag. -/
def GCMCipher.byteLen (c : GCMCipher) : Nat :=
  c.plaintext.byteLen + 16

/-- `gcm.Open`: succeeds exactly when key and nonce match the sealing
call. -/
def gcmOpen (key : ArgonKey) (nonce : List Nat) (c : GCMCipher) : Option PlainData :=
  if c.key = key ∧ c.nonce = nonce then some c.plaintext else none

/-- The on-disk envelope `salt(16B) ‖ nonce(12B) ‖ ciphertext‖tag`. -/
structure Envelope where
  salt : List Nat
  nonce : List Nat
  ct : GCMCipher
deriving DecidableEq, Repr

/-- Total byte length of an envelope. -/
def Envelope.byteLen (e : Envelope) : Nat :=
  e.salt.length + e.nonce.length + e.ct.byteLen

/-- Fresh random bytes from a seed (`io.ReadFull(rand.Reader, _)`). -/
def randBytes (n seed : Nat) : List Nat :=
  (List.range n).map fun i => seed / 256 ^ i % 256

theorem randBytes_length (n seed : Nat) : (randBytes n seed).length = n := by
  simp [randBytes]

/-! ## Envelope crypto (`internal/crypto/crypto.go`) -/

inductive CryptoErr where
  | emptyPassword
  | tooShort
  | noPassword
  | authFailed
deriving DecidableEq, Repr

/-- `crypto.Encrypt`: rejects the empty password, derives the key from a
fresh 16-byte salt, seals with a fresh 12-byte nonce, and returns
`salt ‖ nonce ‖ ciphertext`.  The caller supplies the randomness seeds. -/
def Encrypt (plaintext : PlainData) (password : String) (saltSeed nonceSeed : Nat) :
    Except CryptoErr Envelope :=
  if password = "" then .error .emptyPassword
  else
    let salt := randBytes 16 saltSeed
    let nonce := randBytes 12 nonceSeed
    .ok { salt := salt, nonce := nonce,
          ct := { key := ⟨password, salt⟩, nonce := nonce, plaintext := plaintext } }

/-- Key derivation plus tag check, the tail of `crypto.Decrypt` after
the session-cache logic has chosen the effective password. -/
def decryptWithKey (encrypted : Envelope) (password : String) : Except CryptoErr PlainData :=
  match gcmOpen ⟨password, encrypted.salt⟩ encrypted.nonce encrypted.ct with
  | some plaintext => .ok plaintext
  | none => .error .authFailed

/-- `crypto.Decrypt`: checks the 44-byte minimum, then consults the
session cache — a cached non-empty password replaces the supplied one;
with an empty cache a non-empty supplied password is cached before the
tag check.  Returns the result together with the session cache left
behind (`""` denotes an absent cache file). -/
def Decrypt (encrypted : Envelope) (password cache : String) :
    Except CryptoErr PlainData × String :=
  if encrypted.byteLen < 16 + 12 + 16 then (.error .tooShort, cache)
  else if cache ≠ "" then
    (decryptWithKey encrypted cache, cache)
  else if password = "" then (.error .noPassword, cache)
  else (decryptWithKey encrypted password, password)

/-! ## Password verification (`verify` module, part_017 revision, with
`session.go`'s `ClearSession` that actually removes the cache file) -/

/-- The constant plaintext of the verification file. -/
def VerificationContent : PlainData := .str "dredge-vault-v1"

inductive VerifyErr where
  | emptyPassword
  | fileNotFound
  | wrongPassword
  | corrupted
deriving DecidableEq, Repr

/-- `crypto.VerifyPassword`: captures the cached password, clears the
session cache, decrypts the verification file with exactly the supplied
password, restores a previously cached different password, then checks
the decrypted content.  `keyFile` is the `.dredge-key` file (`none` when
absent); the second component is the session cache after the call. -/
def VerifyPassword (password : String) (keyFile : Option Envelope) (cache : String) :
    Except VerifyErr Unit × String :=
  if password = "" then (.error .emptyPassword, cache)
  else
    match keyFile with
    | none => (.error .fileNotFound, cache)
    | some env =>
      let cached := cache
      -- ClearSession, then Decrypt with the cache file absent
      let r := Decrypt env password ""
      let cacheAfter := if cached ≠ "" ∧ cached ≠ password then cached else r.2
      match r.1 with
      | .error _ => (.error .wrongPassword, cacheAfter)
      | .ok pt =>
        if pt = VerificationContent then (.ok (), cacheAfter)
        else (.error .corrupted, cacheAfter)

/-! ### C3, C4, C9, C8 -/

theorem Encrypt_eq_ok (m : PlainData) (p : String) (ss ns : Nat) (hp : p ≠ "") :
    Encrypt m p ss ns =
      .ok ⟨randBytes 16 ss, randBytes 12 ns, ⟨⟨p, randBytes 16 ss⟩, randBytes 12 ns, m⟩⟩ := by
  simp [Encrypt, hp]

theorem encrypt_env_byteLen (m : PlainData) (p : String) (ss ns : Nat) :
    (Envelope.mk (randBytes 16 ss) (randBytes 12 ns)
      ⟨⟨p, randBytes 16 ss⟩, randBytes 12 ns, m⟩).byteLen = 44 + m.byteLen := by
  simp [Envelope.byteLen, randBytes_length, GCMCipher.byteLen]
  omega

/-- C3: for every non-empty password p and every payload m (the empty
string included), decrypting the freshly produced envelope with p and no
active session cache succeeds and returns exactly m. -/
theorem encrypt_decrypt_roundtrip (m : PlainData) (p : String) (hp : p ≠ "")
    (saltSeed nonceSeed : Nat) :
    ∃ env, Encrypt m p saltSeed nonceSeed = .ok env ∧ (Decrypt env p "").1 = .ok m := by
  refine ⟨_, Encrypt_eq_ok m p saltSeed nonceSeed hp, ?_⟩
  have hlen := encrypt_env_byteLen m p saltSeed nonceSeed
  have h2 : ¬ (44 + m.byteLen < 16 + 12 + 16) := by omega
  simp [Decrypt, hlen, h2, hp, decryptWithKey, gcmOpen]

/-- C3 witness: the round-trip at a concrete password and payload. -/
theorem encrypt_decrypt_roundtrip_witness :
    ("pw" ≠ "") ∧
      ∃ env, Encrypt (.str "secret") "pw" 3 5 = .ok env ∧
        (Decrypt env "pw" "").1 = .ok (.str "secret") :=
  ⟨by decide, encrypt_decrypt_roundtrip (.str "secret") "pw" (by decide) 3 5⟩

/-- C4 counterexample: with p1 = "a" and p2 = "" (a pair of distinct
passwords), decryption fails with the no-password error, not with the
wrong-password (authentication) error the claim names. -/
theorem decrypt_wrong_password_counterexample :
    ("a" : String) ≠ "" ∧
      (Encrypt (.str "Secret data") "a" 0 0).toOption.map
        (fun env => (Decrypt env "" "").1) = some (.error .noPassword) ∧
      (CryptoErr.noPassword ≠ CryptoErr.authFailed) := by
  refine ⟨by decide, ?_, by decide⟩
  rfl

/-- C4 amended: for every payload m and non-empty passwords p1 ≠ p2,
decrypting an envelope produced under p1 with p2 (no active session
cache) fails with the wrong-password authentication error. -/
theorem decrypt_wrong_password_rejected (m : PlainData) (p1 p2 : String)
    (h1 : p1 ≠ "") (h2 : p2 ≠ "") (hne : p1 ≠ p2) (saltSeed nonceSeed : Nat) :
    ∃ env, Encrypt m p1 saltSeed nonceSeed = .ok env ∧
      (Decrypt env p2 "").1 = .error .authFailed := by
  refine ⟨_, Encrypt_eq_ok m p1 saltSeed nonceSeed h1, ?_⟩
  have hlen := encrypt_env_byteLen m p1 saltSeed nonceSeed
  have hzero : ¬ (44 + m.byteLen < 16 + 12 + 16) := by omega
  simp [Decrypt, hlen, hzero, h2, decryptWithKey, gcmOpen, ArgonKey.mk.injEq]
  rw [if_neg hne]

/-- C4 amended witness: rejection at concrete distinct passwords. -/
theorem decrypt_wrong_password_rejected_witness :
    ("correct" ≠ "") ∧ ("wrong" ≠ "") ∧ ("correct" ≠ "wrong") ∧
      ∃ env, Encrypt (.str "Secret data") "correct" 1 2 = .ok env ∧
        (Decrypt env "wrong" "").1 = .error .authFailed :=
  ⟨by decide, by decide, by decide,
    decrypt_wrong_password_rejected (.str "Secret data") "correct" "wrong"
      (by decide) (by decide) (by decide) 1 2⟩

/-- C9: Decrypt is not a function of its two arguments alone.  For an
envelope passing the length check: with a non-empty cached password c
the key is derived from c and the supplied password is ignored entirely;
with an empty cache and a non-empty supplied password p, the session
cache holds p after the call even when the tag check fails. -/
theorem decrypt_session_cache_behavior (env : Envelope) (p q c : String)
    (hlen : ¬ env.byteLen < 16 + 12 + 16) :
    (c ≠ "" → Decrypt env p c = Decrypt env q c ∧
      (Decrypt env p c).1 = decryptWithKey env c) ∧
    (c = "" → p ≠ "" → (Decrypt env p c).2 = p) := by
  constructor
  · intro hc
    constructor <;> simp [Decrypt, hlen, hc]
  · intro hc hp
    simp [Decrypt, hlen, hc, hp]

/-- C9 witness: the cache behavior at a concrete envelope whose tag
check fails, showing the failed password is still cached. -/
theorem decrypt_session_cache_behavior_witness :
    (¬ (Envelope.mk (randBytes 16 0) (randBytes 12 0)
        ⟨⟨"owner", randBytes 16 0⟩, randBytes 12 0, .str "m"⟩).byteLen < 16 + 12 + 16) ∧
    (("c" : String) ≠ "" →
      Decrypt ⟨randBytes 16 0, randBytes 12 0,
        ⟨⟨"owner", randBytes 16 0⟩, randBytes 12 0, .str "m"⟩⟩ "p" "c" =
      Decrypt ⟨randBytes 16 0, randBytes 12 0,
        ⟨⟨"owner", randBytes 16 0⟩, randBytes 12 0, .str "m"⟩⟩ "q" "c" ∧
      (Decrypt ⟨randBytes 16 0, randBytes 12 0,
        ⟨⟨"owner", randBytes 16 0⟩, randBytes 12 0, .str "m"⟩⟩ "p" "c").1 =
      decryptWithKey ⟨randBytes 16 0, randBytes 12 0,
        ⟨⟨"owner", randBytes 16 0⟩, randBytes 12 0, .str "m"⟩⟩ "c") ∧
    (("" : String) = "" → ("p" : String) ≠ "" →
      (Decrypt ⟨randBytes 16 0, randBytes 12 0,
        ⟨⟨"owner", randBytes 16 0⟩, randBytes 12 0, .str "m"⟩⟩ "p" "").2 = "p") :=
  ⟨by decide,
    (decrypt_session_cache_behavior _ "p" "q" "c" (by decide)).1,
    (decrypt_session_cache_behavior _ "p" "q" "" (by decide)).2⟩

/-- C8: VerifyPassword's verdict never depends on the session cache (it
decrypts with exactly the password under test), and a previously cached
password that differs from the tested one is stored in the cache again
when the call returns. -/
theorem verify_password_bypasses_and_restores_cache (p : String) (kf : Option Envelope)
    (c : String) (hp : p ≠ "") :
    (VerifyPassword p kf c).1 = (VerifyPassword p kf "").1 ∧
    (c ≠ "" → c ≠ p → (VerifyPassword p kf c).2 = c) := by
  constructor
  · cases kf with
    | none => simp [VerifyPassword, hp]
    | some env =>
      cases hr : (Decrypt env p "").1 with
      | error e => simp [VerifyPassword, hp, hr]
      | ok pt =>
        by_cases hpt : pt = VerificationContent <;> simp [VerifyPassword, hp, hr, hpt]
  · intro hc hcp
    cases kf with
    | none => simp [VerifyPassword, hp]
    | some env =>
      cases hr : (Decrypt env p "").1 with
      | error e => simp [VerifyPassword, hp, hc, hcp, hr]
      | ok pt =>
        by_cases hpt : pt = VerificationContent <;>
          simp [VerifyPassword, hp, hc, hcp, hr, hpt]

/-- C8 witness: at a concrete verification file, tested password and
stale cached password, the verdict matches the cache-free run and the
stale password is restored. -/
theorem verify_password_bypasses_and_restores_cache_witness :
    ("candidate" ≠ "") ∧
      ((VerifyPassword "candidate"
          (some ⟨randBytes 16 7, randBytes 12 8,
            ⟨⟨"owner", randBytes 16 7⟩, randBytes 12 8, VerificationContent⟩⟩) "stale").1 =
        (VerifyPassword "candidate"
          (some ⟨randBytes 16 7, randBytes 12 8,
            ⟨⟨"owner", randBytes 16 7⟩, randBytes 12 8, VerificationContent⟩⟩) "").1 ∧
      (("stale" : String) ≠ "" → ("stale" : String) ≠ "candidate" →
        (VerifyPassword "candidate"
          (some ⟨randBytes 16 7, randBytes 12 8,
            ⟨⟨"owner", randBytes 16 7⟩, randBytes 12 8, VerificationContent⟩⟩) "stale").2 =
          "stale")) :=
  ⟨by decide, verify_password_bypasses_and_restores_cache "candidate" _ "stale" (by decide)⟩

/-! ## Directories as association lists -/

/-- Lookup by file name in a directory listing. -/
def lookupA {α : Type} (k : String) : List (String × α) → Option α
  | [] => none
  | (k', v) :: rest => if k' = k then some v else lookupA k rest

/-- Whole-file write: replace the entry if the name exists, else append. -/
def insertA {α : Type} (k : String) (v : α) : List (String × α) → List (String × α)
  | [] => [(k, v)]
  | (k', v') :: rest => if k' = k then (k, v) :: rest else (k', v') :: insertA k v rest

/-- File removal by name. -/
def eraseA {α : Type} (k : String) : List (String × α) → List (String × α)
  | [] => []
  | (k', v') :: rest => if k' = k then rest else (k', v') :: eraseA k rest

instance exceptDecEq {ε α : Type} [DecidableEq ε] [DecidableEq α] :
    DecidableEq (Except ε α)
  | .error a, .error b =>
    if h : a = b then .isTrue (by rw [h]) else .isFalse (by simp [h])
  | .error _, .ok _ => .isFalse (by simp)
  | .ok _, .error _ => .isFalse (by simp)
  | .ok a, .ok b =>
    if h : a = b then .isTrue (by rw [h]) else .isFalse (by simp [h])

/-! ## SHA-256, manifest and trash records -/

/-- SHA-256 content hash (`hashFile`), idealized as collision-free. -/
structure HashVal where
  data : String
deriving DecidableEq, Repr

/-- `fmt.Sprintf("sha256:%x", sha256.Sum256(data))`. -/
def hashStr (content : String) : HashVal := ⟨content⟩

/-- `storage.LinkEntry`: target path and last-synced content hash. -/
structure LinkEntry where
  path : String
  hash : HashVal
deriving DecidableEq, Repr

/-- A `.trashinfo` sidecar record: original path and deletion time. -/
structure TrashInfo where
  path : String
  deletionDate : Nat
deriving DecidableEq, Repr

/-- The filesystem portions the vault touches.  Directories are listings
keyed by file name; `none` for an optional directory or file means it
does not exist.  `cache` is the session-cache password (`""` = absent). -/
structure FS where
  items : List (String × Envelope)
  tmpItems : Option (List (String × Envelope))
  oldItems : Option (List (String × Envelope))
  keyFile : Option Envelope
  keyTmp : Option Envelope
  keyOld : Option Envelope
  manifest : List (String × LinkEntry)
  spawned : List (String × String)
  targets : List (String × String)
  dirs : List String
  trashFiles : List (String × Envelope)
  trashInfo : List (String × TrashInfo)
  cache : String
deriving DecidableEq, Repr

/-- Injected outcomes for I/O operations that the source handles as
fallible but that cannot fail in the abstract model (disk-full writes,
symlink syscalls, external interference with a directory listing).
Indices refer to loop iterations of the rotation write phase. -/
structure FailSpec where
  encodeFailIdxs : List Nat
  writeItemFailIdxs : List Nat
  keyTmpWriteFail : Bool
  readTmpDirFail : Bool
  tmpCountOverride : Option Nat
  renameItemsFail : Bool
  renameTmpFail : Bool
  renameKeyBackupFail : Bool
  renameKeyFail : Bool
  hashFail : Bool
  symlinkFail : Bool
  loadManifestFail : Bool
  saveManifestFail : Bool
  infoWriteFail : Bool
deriving DecidableEq, Repr

/-- All injected operations succeed. -/
def FailSpec.noFail : FailSpec :=
  ⟨[], [], false, false, none, false, false, false, false, false, false, false, false, false⟩

/-! ## Item store (`storage.go`) -/

inductive StoreErr where
  | notFound
  | decryptFailed
  | decodeFailed
  | encryptFailed
  | alreadyExists
deriving DecidableEq, Repr

/-- `storage.ReadItem`: read the encrypted file, decrypt (threading the
session cache), decode the TOML payload. -/
def ReadItem (s : FS) (id password : String) : Except StoreErr Item × FS :=
  match lookupA id s.items with
  | none => (.error .notFound, s)
  | some env =>
    let r := Decrypt env password s.cache
    let s₁ := { s with cache := r.2 }
    match r.1 with
    | .error _ => (.error .decryptFailed, s₁)
    | .ok (.item i) => (.ok i, s₁)
    | .ok (.str _) => (.error .decodeFailed, s₁)

/-- `storage.UpdateItem`: require the file to exist, bump `modified`,
re-encode, re-encrypt, replace the file. -/
def UpdateItem (s : FS) (id : String) (item : Item) (password : String)
    (now saltSeed nonceSeed : Nat) : Except StoreErr Unit × FS :=
  match lookupA id s.items with
  | none => (.error .notFound, s)
  | some _ =>
    let bumped := { item with modified := now }
    match Encrypt (.item bumped) password saltSeed nonceSeed with
    | .error _ => (.error .encryptFailed, s)
    | .ok env => (.ok (), { s with items := insertA id env s.items })

/-- `storage.ItemExists`. -/
def ItemExists (s : FS) (id : String) : Bool :=
  (lookupA id s.items).isSome

/-! ## Trash (`internal/storage/trash.go`) -/

inductive TrashErr where
  | notFound
  | infoWriteFailed
deriving DecidableEq, Repr

/-- `storage.MoveToTrash`: ensure the trash directories, require the
item, rename it into `Trash/files/`, then write the `.trashinfo`
sidecar; if the sidecar write fails, rename the item back and return the
error. -/
def MoveToTrash (s : FS) (id : String) (f : FailSpec) (now : Nat) :
    Except TrashErr Unit × FS :=
  match lookupA id s.items with
  | none => (.error .notFound, s)
  | some env =>
    let s₁ := { s with items := eraseA id s.items,
                       trashFiles := insertA id env s.trashFiles }
    if f.infoWriteFail then
      -- move the item back before returning the error
      (.error .infoWriteFailed,
        { s₁ with items := insertA id env s₁.items,
                  trashFiles := eraseA id s₁.trashFiles })
    else
      (.ok (), { s₁ with trashInfo := insertA id ⟨id, now⟩ s₁.trashInfo })

/-! ### C10 -/

theorem lookupA_insertA_self {α : Type} (k : String) (v : α) (l : List (String × α)) :
    lookupA k (insertA k v l) = some v := by
  induction l with
  | nil => simp [insertA, lookupA]
  | cons hd tl ih =>
    obtain ⟨k', v'⟩ := hd
    by_cases h : k' = k <;> simp [insertA, lookupA, h, ih]

theorem lookupA_eq_none_of_not_mem {α : Type} (k : String) (l : List (String × α))
    (h : k ∉ l.map Prod.fst) : lookupA k l = none := by
  induction l with
  | nil => simp [lookupA]
  | cons hd tl ih =>
    obtain ⟨k', v'⟩ := hd
    rw [List.map_cons, List.mem_cons] at h
    push_neg at h
    simp [lookupA, Ne.symm h.1]
    exact ih h.2

theorem eraseA_insertA {α : Type} (k : String) (v : α) (l : List (String × α)) :
    eraseA k (insertA k v l) = eraseA k l := by
  induction l with
  | nil => simp [insertA, eraseA]
  | cons hd tl ih =>
    obtain ⟨k', v'⟩ := hd
    by_cases h : k' = k <;> simp [insertA, eraseA, h, ih]

theorem lookupA_eraseA_none {α : Type} (k : String) (l : List (String × α))
    (hl : (l.map Prod.fst).Nodup) : lookupA k (eraseA k l) = none := by
  induction l with
  | nil => simp [eraseA, lookupA]
  | cons hd tl ih =>
    obtain ⟨k', v'⟩ := hd
    simp at hl
    by_cases h : k' = k
    · subst h
      simp [eraseA]
      exact lookupA_eq_none_of_not_mem k' tl (by simpa using hl.1)
    · simp [eraseA, lookupA, h]
      exact ih hl.2

/-- C10: whenever the item exists in the live items directory (with
unique file names in the trash directory) and move_to_trash returns an
error, the item is still present in the live directory with its original
envelope and absent from the trash files. -/
theorem move_to_trash_error_restores (s : FS) (id : String) (f : FailSpec)
    (now : Nat) (env : Envelope) (e : TrashErr)
    (hitem : lookupA id s.items = some env)
    (htrash : (s.trashFiles.map Prod.fst).Nodup)
    (herr : (MoveToTrash s id f now).1 = .error e) :
    lookupA id (MoveToTrash s id f now).2.items = some env ∧
      lookupA id (MoveToTrash s id f now).2.trashFiles = none := by
  by_cases hf : f.infoWriteFail
  · simp only [MoveToTrash, hitem, hf, if_true]
    constructor
    · exact lookupA_insertA_self id env _
    · rw [eraseA_insertA]
      exact lookupA_eraseA_none id _ htrash
  · simp [MoveToTrash, hitem, hf] at herr

/-- C10 witness: concrete failing sidecar write restores the item. -/
theorem move_to_trash_error_restores_witness :
    (lookupA "abc"
        (FS.mk [("abc", ⟨[], [], ⟨⟨"pw", []⟩, [], .str "x"⟩⟩)] none none none none none
          [] [] [] [] [] [] "").items = some ⟨[], [], ⟨⟨"pw", []⟩, [], .str "x"⟩⟩) ∧
    ((MoveToTrash
        (FS.mk [("abc", ⟨[], [], ⟨⟨"pw", []⟩, [], .str "x"⟩⟩)] none none none none none
          [] [] [] [] [] [] "")
        "abc" { FailSpec.noFail with infoWriteFail := true } 0).1 =
      .error .infoWriteFailed) ∧
    (lookupA "abc"
        (MoveToTrash
          (FS.mk [("abc", ⟨[], [], ⟨⟨"pw", []⟩, [], .str "x"⟩⟩)] none none none none none
            [] [] [] [] [] [] "")
          "abc" { FailSpec.noFail with infoWriteFail := true } 0).2.items =
        some ⟨[], [], ⟨⟨"pw", []⟩, [], .str "x"⟩⟩) ∧
    (lookupA "abc"
        (MoveToTrash
          (FS.mk [("abc", ⟨[], [], ⟨⟨"pw", []⟩, [], .str "x"⟩⟩)] none none none none none
            [] [] [] [] [] [] "")
          "abc" { FailSpec.noFail with infoWriteFail := true } 0).2.trashFiles = none) := by
  refine ⟨by decide, by rfl, ?_⟩
  exact move_to_trash_error_restores _ "abc" _ 0 _ .infoWriteFailed (by decide) (by decide)
    (by rfl)

/-! ## Password retrieval (`GetPasswordWithVerification`, part_017
revision) -/

inductive PwErr where
  | cacheReadFailed
  | emptyPassword
  | createFailed
  | wrongPassword
deriving DecidableEq, Repr

/-- The prompt phase of `GetPasswordWithVerification`: reject an empty
entry; with no verification file, bootstrap one from the entered
password; otherwise verify the entered password.  On success the
password is cached. -/
def gpvPromptPhase (keyFile : Option Envelope) (cache promptPw : String) (ss ns : Nat) :
    Except PwErr String × (String × Option Envelope) :=
  if promptPw = "" then (.error .emptyPassword, (cache, keyFile))
  else
    match keyFile with
    | none =>
      match Encrypt VerificationContent promptPw ss ns with
      | .error _ => (.error .createFailed, (cache, keyFile))
      | .ok env => (.ok promptPw, (promptPw, some env))
    | some _ =>
      let r := VerifyPassword promptPw keyFile cache
      match r.1 with
      | .error _ => (.error .wrongPassword, (r.2, keyFile))
      | .ok _ => (.ok promptPw, (promptPw, keyFile))

/-- `crypto.GetPasswordWithVerification`: a cached password that still
verifies is returned; a stale cache is cleared and the user is prompted
(the prompt's answer is the `promptPw` argument). -/
def GetPasswordWithVerification (keyFile : Option Envelope) (cache promptPw : String)
    (ss ns : Nat) : Except PwErr String × (String × Option Envelope) :=
  if cache ≠ "" then
    let r := VerifyPassword cache keyFile cache
    match r.1 with
    | .ok _ => (.ok cache, (r.2, keyFile))
    | .error _ => gpvPromptPhase keyFile "" promptPw ss ns
  else gpvPromptPhase keyFile cache promptPw ss ns

/-! ## Drift sync (`syncItemIfNeeded`, part_014 revision) -/

inductive SyncErr where
  | manifestLoadFailed
  | hashFailed
  | spawnedReadFailed
  | itemReadFailed
  | decryptFailed
  | decodeFailed
  | encryptFailed
  | manifestSaveFailed
deriving DecidableEq, Repr

/-- `storage.syncItemIfNeeded`: load the manifest (no entry — nothing to
sync); hash the spawned file; equal hash — no-op; otherwise read the
spawned content, load the raw encrypted item (bypassing the syncing
read), overwrite its content, bump `modified`, re-encrypt and write, and
store the new hash in the manifest. -/
def syncItemIfNeeded (s : FS) (id password : String) (f : FailSpec)
    (now ss ns : Nat) : Except SyncErr Unit × FS :=
  if f.loadManifestFail then (.error .manifestLoadFailed, s)
  else
    match lookupA id s.manifest with
    | none => (.ok (), s)
    | some entry =>
      match lookupA id s.spawned with
      | none => (.error .hashFailed, s)
      | some spawnedContent =>
        if f.hashFail then (.error .hashFailed, s)
        else if hashStr spawnedContent = entry.hash then (.ok (), s)
        else
          match lookupA id s.items with
          | none => (.error .itemReadFailed, s)
          | some env =>
            match Decrypt env password s.cache with
            | (.error _, c2) => (.error .decryptFailed, { s with cache := c2 })
            | (.ok (.str _), c2) => (.error .decodeFailed, { s with cache := c2 })
            | (.ok (.item item), c2) =>
              match Encrypt (.item { item with content := spawnedContent, modified := now })
                  password ss ns with
              | .error _ => (.error .encryptFailed, { s with cache := c2 })
              | .ok env' =>
                if f.saveManifestFail then
                  (.error .manifestSaveFailed,
                    { s with cache := c2, items := insertA id env' s.items })
                else
                  (.ok (),
                    { s with cache := c2, items := insertA id env' s.items,
                             manifest :=
                               insertA id ⟨entry.path, hashStr spawnedContent⟩ s.manifest })

/-- Modelled from the spec: the storage revision whose `ReadItem`
triggers the drift sync is not under src — only `syncItemIfNeeded`
itself (part_014) and comments naming the call site are.  Per the spec,
`read(id, password)` runs `sync_if_needed` and then decrypts and returns
the (possibly refreshed) item; a sync failure fails the read. -/
def ReadItemWithSync (s : FS) (id password : String) (f : FailSpec)
    (now ss ns : Nat) : Except StoreErr Item × FS :=
  let r := syncItemIfNeeded s id password f now ss ns
  match r.1 with
  | .error _ => (.error .decryptFailed, r.2)
  | .ok _ => ReadItem r.2 id password

/-! ## Link and Unlink (part_014 revision) -/

inductive LinkErr where
  | alreadyLinked
  | passwordFailed
  | loadItemFailed
  | notText
  | notAbsolute
  | targetExists
  | parentMissing
  | hashFailed
  | symlinkFailed
  | manifestLoadFailed
  | manifestSaveFailed
deriving DecidableEq, Repr

/-- Split a character list at every slash. -/
def splitSlash : List Char → List (List Char)
  | [] => [[]]
  | c :: rest =>
    let r := splitSlash rest
    if c = '/' then [] :: r
    else
      match r with
      | [] => [[c]]
      | hd :: tl => (c :: hd) :: tl

/-- Join path components with slashes. -/
def joinSlash : List (List Char) → List Char
  | [] => []
  | [x] => x
  | x :: rest => x ++ '/' :: joinSlash rest

/-- `filepath.Dir` on slash-separated paths: drop the last component. -/
def parentDir (p : String) : String :=
  String.mk (joinSlash (splitSlash p.data).dropLast)

/-- `filepath.IsAbs`: the path begins with a slash. -/
def isAbsPath (p : String) : Bool :=
  match p.data with
  | [] => false
  | c :: _ => c = '/'

/-- Directory-existence check (`os.Stat` on the parent directory). -/
def memStr (x : String) : List String → Bool
  | [] => false
  | y :: rest => if y = x then true else memStr x rest

/-- `storage.Link` from the spawned-file write onward: hash the spawned
file, create the symlink, record the manifest entry; every failure
removes the spawned file (and the symlink once created) before
returning. -/
def linkSpawnPhase (s : FS) (id targetPath : String) (item : Item) (f : FailSpec) :
    Except LinkErr Unit × FS :=
  let s₁ := { s with spawned := insertA id item.content s.spawned }
  if f.hashFail then (.error .hashFailed, { s₁ with spawned := eraseA id s₁.spawned })
  else if f.symlinkFail then
    (.error .symlinkFailed, { s₁ with spawned := eraseA id s₁.spawned })
  else
    let s₂ := { s₁ with targets := insertA targetPath (".spawned/" ++ id) s₁.targets }
    if f.loadManifestFail then
      (.error .manifestLoadFailed,
        { s₂ with targets := eraseA targetPath s₂.targets,
                  spawned := eraseA id s₂.spawned })
    else if f.saveManifestFail then
      (.error .manifestSaveFailed,
        { s₂ with targets := eraseA targetPath s₂.targets,
                  spawned := eraseA id s₂.spawned })
    else
      let newManifest := insertA id ⟨targetPath, hashStr item.content⟩ s₂.manifest
      (.ok (), { s₂ with manifest := newManifest })

/-- `storage.Link`, parent-directory check before the spawned file is
written. -/
def linkParentPhase (s : FS) (id targetPath : String) (item : Item) (f : FailSpec) :
    Except LinkErr Unit × FS :=
  if memStr (parentDir targetPath) s.dirs then linkSpawnPhase s id targetPath item f
  else (.error .parentMissing, s)

/-- `storage.Link`, target check (`os.Lstat`): an existing file at the
target is an error without `force` and is removed first with it. -/
def linkTargetPhase (s : FS) (id targetPath : String) (force : Bool) (item : Item)
    (f : FailSpec) : Except LinkErr Unit × FS :=
  match lookupA targetPath s.targets with
  | some _ =>
    if force then
      linkParentPhase { s with targets := eraseA targetPath s.targets } id targetPath item f
    else (.error .targetExists, s)
  | none => linkParentPhase s id targetPath item f

/-- `storage.Link` after the double-link check: obtain a verified
password, load the item, require a Text item and an absolute target,
then spawn, symlink and record. -/
def linkAuthPhase (s : FS) (id targetPath : String) (force : Bool) (promptPw : String)
    (f : FailSpec) (ss ns : Nat) : Except LinkErr Unit × FS :=
  let gp := GetPasswordWithVerification s.keyFile s.cache promptPw ss ns
  let s₁ := { s with cache := gp.2.1, keyFile := gp.2.2 }
  match gp.1 with
  | .error _ => (.error .passwordFailed, s₁)
  | .ok password =>
    let ri := ReadItem s₁ id password
    match ri.1 with
    | .error _ => (.error .loadItemFailed, ri.2)
    | .ok item =>
      if item.type ≠ .text then (.error .notText, ri.2)
      else if ¬ isAbsPath targetPath then (.error .notAbsolute, ri.2)
      else linkTargetPhase ri.2 id targetPath force item f

/-- `storage.Link` (part_014): refuse double-linking (`IsLinked` reports
false when the manifest cannot be loaded), then authenticate and link. -/
def Link (s : FS) (id targetPath : String) (force : Bool) (promptPw : String)
    (f : FailSpec) (ss ns : Nat) : Except LinkErr Unit × FS :=
  if (if f.loadManifestFail then false else (lookupA id s.manifest).isSome) then
    (.error .alreadyLinked, s)
  else linkAuthPhase s id targetPath force promptPw f ss ns

inductive UnlinkErr where
  | notLinked
  | passwordFailed
  | manifestUpdateFailed
  | nothingToCleanUp
deriving DecidableEq, Repr

/-- `storage.Unlink`, sync phase: if the backing item still exists,
obtain a verified password and perform a best-effort read (which
triggers the drift sync); read failures are warnings only, but a
password-retrieval failure aborts. -/
def unlinkSyncPhase (s : FS) (id promptPw : String) (f : FailSpec)
    (now ss ns ss2 ns2 : Nat) : Except UnlinkErr Unit × FS :=
  if ItemExists s id then
    let gp := GetPasswordWithVerification s.keyFile s.cache promptPw ss ns
    let s₁ := { s with cache := gp.2.1, keyFile := gp.2.2 }
    match gp.1 with
    | .error _ => (.error .passwordFailed, s₁)
    | .ok password =>
      (.ok (), (ReadItemWithSync s₁ id password f now ss2 ns2).2)
  else (.ok (), s)

/-- `storage.Unlink`, cleanup phase: remove the symlink and the spawned
file, swallowing missing-file errors while tracking whether anything was
removed; remove the manifest entry; report nothing-to-clean-up exactly
when neither existed. -/
def unlinkCleanupPhase (s : FS) (id : String) (entry : LinkEntry) (f : FailSpec) :
    Except UnlinkErr Unit × FS :=
  let cleaned₁ := (lookupA entry.path s.targets).isSome
  let s₃ := { s with targets := eraseA entry.path s.targets }
  let cleaned₂ := (lookupA id s₃.spawned).isSome
  let s₄ := { s₃ with spawned := eraseA id s₃.spawned }
  if f.loadManifestFail ∨ f.saveManifestFail then (.error .manifestUpdateFailed, s₄)
  else
    let s₅ := { s₄ with manifest := eraseA id s₄.manifest }
    if cleaned₁ ∨ cleaned₂ then (.ok (), s₅)
    else (.error .nothingToCleanUp, s₅)

/-- `storage.Unlink` (part_014): refuse if not linked (`IsLinked` reports
false when the manifest cannot be loaded), then sync and clean up. -/
def Unlink (s : FS) (id promptPw : String) (f : FailSpec)
    (now ss ns ss2 ns2 : Nat) : Except UnlinkErr Unit × FS :=
  match (if f.loadManifestFail then none else lookupA id s.manifest) with
  | none => (.error .notLinked, s)
  | some entry =>
    let afterSync := unlinkSyncPhase s id promptPw f now ss ns ss2 ns2
    match afterSync.1 with
    | .error e => (.error e, afterSync.2)
    | .ok _ => unlinkCleanupPhase afterSync.2 id entry f

/-! ## Self-heal (`internal/selfheal/selfheal.go`) -/

/-- `selfheal.cleanupOrphanedLinks`: calls `storage.Unlink` for **every**
manifest entry (ignoring errors), then deletes every file in the spawned
directory that the reloaded manifest does not reference. -/
def cleanupOrphanedLinks (s : FS) (promptPw : String) (f : FailSpec)
    (now ss ns ss2 ns2 : Nat) : FS :=
  if f.loadManifestFail then s
  else
    let s₁ := (s.manifest.map Prod.fst).foldl
      (fun st id => (Unlink st id promptPw f now ss ns ss2 ns2).2) s
    if f.loadManifestFail then s₁
    else
      let orphanIDs := (s₁.spawned.map Prod.fst).filter
        (fun id => (lookupA id s₁.manifest).isNone)
      { s₁ with spawned := orphanIDs.foldl (fun sp id => eraseA id sp) s₁.spawned }

/-! ### C2 -/

/-- Decrypting an envelope freshly produced under password p, supplying
p, with the session cache empty or already holding p, succeeds and
leaves p cached. -/
theorem Decrypt_wellformed (m : PlainData) (p cache : String) (a b : Nat) (hp : p ≠ "")
    (hc : cache = "" ∨ cache = p) :
    Decrypt ⟨randBytes 16 a, randBytes 12 b, ⟨⟨p, randBytes 16 a⟩, randBytes 12 b, m⟩⟩
      p cache = (.ok m, p) := by
  have hbl := encrypt_env_byteLen m p a b
  have h2 : ¬ (44 + m.byteLen < 16 + 12 + 16) := by omega
  rcases hc with hc | hc <;> subst hc <;>
    simp [Decrypt, hbl, h2, hp, decryptWithKey, gcmOpen]

/-- C2: reading a linked item whose spawned file drifted (its hash
differs from the manifest's) replaces the stored content with the
spawned content, bumps `modified` to the current clock, re-encrypts and
writes the item, and stores the hash of the new content in the manifest;
with matching hashes the read leaves the encrypted item and the manifest
untouched and returns the stored item. -/
theorem read_syncs_drifted_item (s : FS) (id password : String) (entry : LinkEntry)
    (c : String) (orig : Item) (a b now ss ns : Nat)
    (hm : lookupA id s.manifest = some entry)
    (hsp : lookupA id s.spawned = some c)
    (hit : lookupA id s.items = some
      ⟨randBytes 16 a, randBytes 12 b, ⟨⟨password, randBytes 16 a⟩, randBytes 12 b, .item orig⟩⟩)
    (hp : password ≠ "")
    (hcache : s.cache = "" ∨ s.cache = password) :
    (hashStr c ≠ entry.hash →
      (ReadItemWithSync s id password .noFail now ss ns).1 =
          .ok { orig with content := c, modified := now } ∧
        (∃ env', lookupA id (ReadItemWithSync s id password .noFail now ss ns).2.items
              = some env' ∧
            env'.ct.plaintext = .item { orig with content := c, modified := now }) ∧
        lookupA id (ReadItemWithSync s id password .noFail now ss ns).2.manifest =
          some ⟨entry.path, hashStr c⟩) ∧
    (hashStr c = entry.hash →
      (ReadItemWithSync s id password .noFail now ss ns).2.items = s.items ∧
        (ReadItemWithSync s id password .noFail now ss ns).2.manifest = s.manifest ∧
        (ReadItemWithSync s id password .noFail now ss ns).1 = .ok orig) := by
  have hdec := Decrypt_wellformed (.item orig) password s.cache a b hp hcache
  constructor
  · intro hne
    have hsync : syncItemIfNeeded s id password .noFail now ss ns =
        (.ok (), { s with
          cache := password,
          items := insertA id
            ⟨randBytes 16 ss, randBytes 12 ns,
              ⟨⟨password, randBytes 16 ss⟩, randBytes 12 ns,
                .item { orig with content := c, modified := now }⟩⟩ s.items,
          manifest := insertA id ⟨entry.path, hashStr c⟩ s.manifest }) := by
      simp [syncItemIfNeeded, FailSpec.noFail, hm, hsp, hne, hit, hdec,
        Encrypt_eq_ok _ password ss ns hp]
    have hread := Decrypt_wellformed
      (.item { orig with content := c, modified := now }) password password ss ns hp
      (.inr rfl)
    refine ⟨?_,
      ⟨⟨randBytes 16 ss, randBytes 12 ns,
        ⟨⟨password, randBytes 16 ss⟩, randBytes 12 ns,
          .item { orig with content := c, modified := now }⟩⟩, ?_, rfl⟩, ?_⟩ <;>
      simp [ReadItemWithSync, hsync, ReadItem, lookupA_insertA_self, hread]
  · intro heq
    have hsync : syncItemIfNeeded s id password .noFail now ss ns = (.ok (), s) := by
      simp [syncItemIfNeeded, FailSpec.noFail, hm, hsp, heq]
    simp [ReadItemWithSync, hsync, ReadItem, hit, hdec]

/-- C2 witness: a concrete linked item with content "A" whose spawned
file now holds "B"; the read stores "B" and updates the manifest hash to
hash("B"). -/
theorem read_syncs_drifted_item_witness :
    (lookupA "abc"
        (FS.mk
          [("abc", ⟨randBytes 16 1, randBytes 12 2,
            ⟨⟨"pw", randBytes 16 1⟩, randBytes 12 2,
              .item ⟨"T", [], .text, 0, 0, "", none, "A"⟩⟩⟩)]
          none none none none none
          [("abc", ⟨"/tmp/t", hashStr "A"⟩)] [("abc", "B")] [] [] [] [] "pw").manifest =
      some ⟨"/tmp/t", hashStr "A"⟩) ∧
    (hashStr "B" ≠ (LinkEntry.mk "/tmp/t" (hashStr "A")).hash) ∧
    ((ReadItemWithSync
        (FS.mk
          [("abc", ⟨randBytes 16 1, randBytes 12 2,
            ⟨⟨"pw", randBytes 16 1⟩, randBytes 12 2,
              .item ⟨"T", [], .text, 0, 0, "", none, "A"⟩⟩⟩)]
          none none none none none
          [("abc", ⟨"/tmp/t", hashStr "A"⟩)] [("abc", "B")] [] [] [] [] "pw")
        "abc" "pw" .noFail 9 3 4).1 =
      .ok ⟨"T", [], .text, 0, 9, "", none, "B"⟩) ∧
    (lookupA "abc"
        (ReadItemWithSync
          (FS.mk
            [("abc", ⟨randBytes 16 1, randBytes 12 2,
              ⟨⟨"pw", randBytes 16 1⟩, randBytes 12 2,
                .item ⟨"T", [], .text, 0, 0, "", none, "A"⟩⟩⟩)]
          none none none none none
          [("abc", ⟨"/tmp/t", hashStr "A"⟩)] [("abc", "B")] [] [] [] [] "pw")
        "abc" "pw" .noFail 9 3 4).2.manifest = some ⟨"/tmp/t", hashStr "B"⟩) := by
  have h := read_syncs_drifted_item
    (FS.mk
      [("abc", ⟨randBytes 16 1, randBytes 12 2,
        ⟨⟨"pw", randBytes 16 1⟩, randBytes 12 2,
          .item ⟨"T", [], .text, 0, 0, "", none, "A"⟩⟩⟩)]
      none none none none none
      [("abc", ⟨"/tmp/t", hashStr "A"⟩)] [("abc", "B")] [] [] [] [] "pw")
    "abc" "pw" ⟨"/tmp/t", hashStr "A"⟩ "B" ⟨"T", [], .text, 0, 0, "", none, "A"⟩
    1 2 9 3 4 (by decide) (by decide) (by decide) (by decide) (.inr rfl)
  obtain ⟨hdrift, -⟩ := h
  have hd := hdrift (by decide)
  exact ⟨by decide, by decide, hd.1, by decide⟩

/-! ### C6 -/

/-- The error tags that can only arise after the spawned file has been
created inside `Link`: hashing, symlink creation, and manifest load and
save failures. -/
def isPostSpawnLinkErr : LinkErr → Bool
  | .hashFailed => true
  | .symlinkFailed => true
  | .manifestLoadFailed => true
  | .manifestSaveFailed => true
  | _ => false

/-- `ReadItem` only touches the session cache. -/
theorem ReadItem_frame (s : FS) (id pw : String) :
    (ReadItem s id pw).2.items = s.items ∧ (ReadItem s id pw).2.spawned = s.spawned ∧
      (ReadItem s id pw).2.targets = s.targets ∧
      (ReadItem s id pw).2.manifest = s.manifest ∧
      (ReadItem s id pw).2.keyFile = s.keyFile := by
  cases hl : lookupA id s.items with
  | none => simp [ReadItem, hl]
  | some env =>
    cases hr : (Decrypt env pw s.cache).1 with
    | error e => simp [ReadItem, hl, hr]
    | ok pt => cases pt <;> simp [ReadItem, hl, hr]

theorem linkSpawnPhase_failure (s : FS) (id targetPath : String) (item : Item)
    (f : FailSpec) (e : LinkErr) (hnd : (s.spawned.map Prod.fst).Nodup)
    (herr : (linkSpawnPhase s id targetPath item f).1 = .error e) :
    lookupA id (linkSpawnPhase s id targetPath item f).2.spawned = none := by
  have hkey : lookupA id (eraseA id (insertA id item.content s.spawned)) = none := by
    rw [eraseA_insertA]
    exact lookupA_eraseA_none id _ hnd
  by_cases h1 : f.hashFail
  · simp [linkSpawnPhase, h1, hkey]
  · by_cases h2 : f.symlinkFail
    · simp [linkSpawnPhase, h1, h2, hkey]
    · by_cases h3 : f.loadManifestFail
      · simp [linkSpawnPhase, h1, h2, h3, hkey]
      · by_cases h4 : f.saveManifestFail
        · simp [linkSpawnPhase, h1, h2, h3, h4, hkey]
        · simp [linkSpawnPhase, h1, h2, h3, h4] at herr

theorem linkParentPhase_failure (s : FS) (id targetPath : String)
    (item : Item) (f : FailSpec) (e : LinkErr)
    (hnd : (s.spawned.map Prod.fst).Nodup)
    (herr : (linkParentPhase s id targetPath item f).1 = .error e)
    (hpost : isPostSpawnLinkErr e = true) :
    lookupA id (linkParentPhase s id targetPath item f).2.spawned = none := by
  by_cases hdir : memStr (parentDir targetPath) s.dirs
  · simp only [linkParentPhase] at herr ⊢
    rw [if_pos hdir] at herr ⊢
    exact linkSpawnPhase_failure s id targetPath item f e hnd herr
  · simp only [linkParentPhase] at herr
    rw [if_neg hdir] at herr
    simp at herr
    rw [← herr] at hpost
    simp [isPostSpawnLinkErr] at hpost

theorem linkTargetPhase_failure (s : FS) (id targetPath : String) (force : Bool)
    (item : Item) (f : FailSpec) (e : LinkErr)
    (hnd : (s.spawned.map Prod.fst).Nodup)
    (herr : (linkTargetPhase s id targetPath force item f).1 = .error e)
    (hpost : isPostSpawnLinkErr e = true) :
    lookupA id (linkTargetPhase s id targetPath force item f).2.spawned = none := by
  cases hl : lookupA targetPath s.targets with
  | some dest =>
    by_cases hforce : force
    · simp only [linkTargetPhase, hl] at herr ⊢
      rw [if_pos hforce] at herr ⊢
      exact linkParentPhase_failure _ id targetPath item f e hnd herr hpost
    · simp only [linkTargetPhase, hl] at herr
      rw [if_neg hforce] at herr
      simp at herr
      rw [← herr] at hpost
      simp [isPostSpawnLinkErr] at hpost
  | none =>
    simp only [linkTargetPhase, hl] at herr ⊢
    exact linkParentPhase_failure s id targetPath item f e hnd herr hpost

theorem linkAuthPhase_failure (s : FS) (id targetPath : String) (force : Bool)
    (promptPw : String) (f : FailSpec) (ss ns : Nat) (e : LinkErr)
    (hnd : (s.spawned.map Prod.fst).Nodup)
    (herr : (linkAuthPhase s id targetPath force promptPw f ss ns).1 = .error e)
    (hpost : isPostSpawnLinkErr e = true) :
    lookupA id (linkAuthPhase s id targetPath force promptPw f ss ns).2.spawned = none := by
  unfold linkAuthPhase at herr ⊢
  cases hgp : (GetPasswordWithVerification s.keyFile s.cache promptPw ss ns).1 with
  | error pe =>
    simp only [hgp] at herr
    simp at herr
    rw [← herr] at hpost
    simp [isPostSpawnLinkErr] at hpost
  | ok password =>
    simp only [hgp] at herr ⊢
    cases hri : (ReadItem { s with
        cache := (GetPasswordWithVerification s.keyFile s.cache promptPw ss ns).2.1,
        keyFile := (GetPasswordWithVerification s.keyFile s.cache promptPw ss ns).2.2 }
        id password).1 with
    | error se =>
      simp only [hri] at herr
      simp at herr
      rw [← herr] at hpost
      simp [isPostSpawnLinkErr] at hpost
    | ok item =>
      simp only [hri] at herr ⊢
      by_cases htyp : item.type ≠ ItemType.text
      · rw [if_pos htyp] at herr
        simp at herr
        rw [← herr] at hpost
        simp [isPostSpawnLinkErr] at hpost
      · rw [if_neg htyp] at herr ⊢
        by_cases habs : ¬ isAbsPath targetPath = true
        · rw [if_pos habs] at herr
          simp at herr
          rw [← herr] at hpost
          simp [isPostSpawnLinkErr] at hpost
        · rw [if_neg habs] at herr ⊢
          have hfr := ReadItem_frame { s with
            cache := (GetPasswordWithVerification s.keyFile s.cache promptPw ss ns).2.1,
            keyFile := (GetPasswordWithVerification s.keyFile s.cache promptPw ss ns).2.2 }
            id password
          exact linkTargetPhase_failure _ id targetPath force item f e
            (by rw [hfr.2.1]; exact hnd) herr hpost

/-- C6: whenever `Link` fails after the spawned file has been created —
hashing failure, symlink creation failure, or manifest load/save failure
(identified by their error tags, which no pre-spawn step produces) — the
spawned file has been removed by the time the error is returned. -/
theorem link_failure_removes_spawned_file (s : FS) (id targetPath : String)
    (force : Bool) (promptPw : String) (f : FailSpec) (ss ns : Nat) (e : LinkErr)
    (hnd : (s.spawned.map Prod.fst).Nodup)
    (herr : (Link s id targetPath force promptPw f ss ns).1 = .error e)
    (hpost : isPostSpawnLinkErr e = true) :
    lookupA id (Link s id targetPath force promptPw f ss ns).2.spawned = none := by
  unfold Link at herr ⊢
  by_cases hlk : (if f.loadManifestFail then false
      else (lookupA id s.manifest).isSome) = true
  · rw [if_pos hlk] at herr
    simp at herr
    rw [← herr] at hpost
    simp [isPostSpawnLinkErr] at hpost
  · rw [if_neg hlk] at herr ⊢
    exact linkAuthPhase_failure s id targetPath force promptPw f ss ns e hnd herr hpost

/-- C6 witness: a concrete link whose symlink creation fails removes the
spawned file it created. -/
theorem link_failure_removes_spawned_file_witness :
    (((FS.mk
        [("abc", ⟨randBytes 16 1, randBytes 12 2,
          ⟨⟨"pw", randBytes 16 1⟩, randBytes 12 2,
            .item ⟨"T", [], .text, 0, 0, "", none, "A"⟩⟩⟩)]
        none none
        (some ⟨randBytes 16 5, randBytes 12 6,
          ⟨⟨"pw", randBytes 16 5⟩, randBytes 12 6, VerificationContent⟩⟩)
        none none [] [] [] ["/tmp"] [] [] "pw").spawned.map Prod.fst).Nodup) ∧
    ((Link (FS.mk
        [("abc", ⟨randBytes 16 1, randBytes 12 2,
          ⟨⟨"pw", randBytes 16 1⟩, randBytes 12 2,
            .item ⟨"T", [], .text, 0, 0, "", none, "A"⟩⟩⟩)]
        none none
        (some ⟨randBytes 16 5, randBytes 12 6,
          ⟨⟨"pw", randBytes 16 5⟩, randBytes 12 6, VerificationContent⟩⟩)
        none none [] [] [] ["/tmp"] [] [] "pw")
        "abc" "/tmp/t" false "pw" { FailSpec.noFail with symlinkFail := true } 3 4).1 =
      .error .symlinkFailed) ∧
    (isPostSpawnLinkErr .symlinkFailed = true) ∧
    (lookupA "abc"
        (Link (FS.mk
          [("abc", ⟨randBytes 16 1, randBytes 12 2,
            ⟨⟨"pw", randBytes 16 1⟩, randBytes 12 2,
              .item ⟨"T", [], .text, 0, 0, "", none, "A"⟩⟩⟩)]
          none none
          (some ⟨randBytes 16 5, randBytes 12 6,
            ⟨⟨"pw", randBytes 16 5⟩, randBytes 12 6, VerificationContent⟩⟩)
          none none [] [] [] ["/tmp"] [] [] "pw")
          "abc" "/tmp/t" false "pw" { FailSpec.noFail with symlinkFail := true } 3 4).2.spawned
      = none) := by
  refine ⟨by decide, by decide, by decide, ?_⟩
  exact link_failure_removes_spawned_file _ "abc" "/tmp/t" false "pw"
    { FailSpec.noFail with symlinkFail := true } 3 4 .symlinkFailed
    (by decide) (by decide) (by decide)

/-! ### C7 -/

/-- The drift sync never touches the spawned directory or the symlink
targets, and its only manifest change is replacing the entry for the
synced id. -/
theorem syncItemIfNeeded_frame (s : FS) (id pw : String) (f : FailSpec)
    (now ss ns : Nat) :
    (syncItemIfNeeded s id pw f now ss ns).2.spawned = s.spawned ∧
      (syncItemIfNeeded s id pw f now ss ns).2.targets = s.targets ∧
      ((syncItemIfNeeded s id pw f now ss ns).2.manifest = s.manifest ∨
        ∃ v, (syncItemIfNeeded s id pw f now ss ns).2.manifest = insertA id v s.manifest) := by
  unfold syncItemIfNeeded
  repeat' split
  all_goals
    first
      | exact ⟨rfl, rfl, .inl rfl⟩
      | exact ⟨rfl, rfl, .inr ⟨_, rfl⟩⟩

theorem ReadItemWithSync_frame (s : FS) (id pw : String) (f : FailSpec)
    (now ss ns : Nat) :
    (ReadItemWithSync s id pw f now ss ns).2.spawned = s.spawned ∧
      (ReadItemWithSync s id pw f now ss ns).2.targets = s.targets ∧
      ((ReadItemWithSync s id pw f now ss ns).2.manifest = s.manifest ∨
        ∃ v, (ReadItemWithSync s id pw f now ss ns).2.manifest = insertA id v s.manifest) := by
  have hs := syncItemIfNeeded_frame s id pw f now ss ns
  unfold ReadItemWithSync
  cases hr : (syncItemIfNeeded s id pw f now ss ns).1 with
  | error e =>
    simp only [hr]
    exact hs
  | ok u =>
    have hrf := ReadItem_frame (syncItemIfNeeded s id pw f now ss ns).2 id pw
    simp only [hr]
    refine ⟨?_, ?_, ?_⟩
    · rw [hrf.2.1]
      exact hs.1
    · rw [hrf.2.2.1]
      exact hs.2.1
    · rw [hrf.2.2.2.1]
      exact hs.2.2

theorem unlinkSyncPhase_frame (s : FS) (id promptPw : String) (f : FailSpec)
    (now ss ns ss2 ns2 : Nat) :
    (unlinkSyncPhase s id promptPw f now ss ns ss2 ns2).2.spawned = s.spawned ∧
      (unlinkSyncPhase s id promptPw f now ss ns ss2 ns2).2.targets = s.targets ∧
      ((unlinkSyncPhase s id promptPw f now ss ns ss2 ns2).2.manifest = s.manifest ∨
        ∃ v, (unlinkSyncPhase s id promptPw f now ss ns ss2 ns2).2.manifest =
          insertA id v s.manifest) := by
  unfold unlinkSyncPhase
  by_cases hie : ItemExists s id
  · rw [if_pos hie]
    cases hgp : (GetPasswordWithVerification s.keyFile s.cache promptPw ss ns).1 with
    | error e => simp [hgp]
    | ok password =>
      simp only [hgp]
      exact ReadItemWithSync_frame
        { s with cache := (GetPasswordWithVerification s.keyFile s.cache promptPw ss ns).2.1,
                 keyFile := (GetPasswordWithVerification s.keyFile s.cache promptPw ss ns).2.2 }
        id password f now ss2 ns2
  · rw [if_neg hie]
    exact ⟨rfl, rfl, .inl rfl⟩

theorem unlinkSyncPhase_ok (s : FS) (id promptPw : String) (f : FailSpec)
    (now ss ns ss2 ns2 : Nat)
    (hpw : (GetPasswordWithVerification s.keyFile s.cache promptPw ss ns).1.isOk = true) :
    (unlinkSyncPhase s id promptPw f now ss ns ss2 ns2).1 = .ok () := by
  unfold unlinkSyncPhase
  by_cases hie : ItemExists s id
  · rw [if_pos hie]
    cases hgp : (GetPasswordWithVerification s.keyFile s.cache promptPw ss ns).1 with
    | error e => rw [hgp] at hpw; simp [Except.isOk, Except.toBool] at hpw
    | ok password => simp only [hgp]
  · rw [if_neg hie]

theorem unlinkCleanupPhase_spec (s₀ s₂ : FS) (id : String) (entry : LinkEntry)
    (f : FailSpec)
    (hload : f.loadManifestFail = false) (hsave : f.saveManifestFail = false)
    (hmnd : (s₀.manifest.map Prod.fst).Nodup)
    (hsnd : (s₀.spawned.map Prod.fst).Nodup)
    (htnd : (s₀.targets.map Prod.fst).Nodup)
    (hsp : s₂.spawned = s₀.spawned) (htg : s₂.targets = s₀.targets)
    (hmf : s₂.manifest = s₀.manifest ∨ ∃ v, s₂.manifest = insertA id v s₀.manifest) :
    lookupA id (unlinkCleanupPhase s₂ id entry f).2.manifest = none ∧
      lookupA entry.path (unlinkCleanupPhase s₂ id entry f).2.targets = none ∧
      lookupA id (unlinkCleanupPhase s₂ id entry f).2.spawned = none ∧
      ((unlinkCleanupPhase s₂ id entry f).1 = .error .nothingToCleanUp ↔
        (lookupA entry.path s₀.targets = none ∧ lookupA id s₀.spawned = none)) ∧
      ((unlinkCleanupPhase s₂ id entry f).1 = .ok () ∨
        (unlinkCleanupPhase s₂ id entry f).1 = .error .nothingToCleanUp) := by
  have hman : lookupA id (eraseA id s₂.manifest) = none := by
    rcases hmf with hmf | ⟨v, hmf⟩
    · rw [hmf]
      exact lookupA_eraseA_none id _ hmnd
    · rw [hmf, eraseA_insertA]
      exact lookupA_eraseA_none id _ hmnd
  have htg2 : lookupA entry.path (eraseA entry.path s₀.targets) = none :=
    lookupA_eraseA_none entry.path _ htnd
  have hsp2 : lookupA id (eraseA id s₀.spawned) = none :=
    lookupA_eraseA_none id _ hsnd
  unfold unlinkCleanupPhase
  simp only [htg, hsp, hload, hsave]
  rw [if_neg (by simp)]
  cases ht : lookupA entry.path s₀.targets with
  | some dest =>
    rw [if_pos (by simp)]
    refine ⟨hman, htg2, hsp2, ?_, .inl rfl⟩
    simp
  | none =>
    cases hspo : lookupA id s₀.spawned with
    | some c =>
      rw [if_pos (by simp)]
      refine ⟨hman, htg2, hsp2, ?_, .inl rfl⟩
      simp
    | none =>
      rw [if_neg (by simp)]
      refine ⟨hman, htg2, hsp2, ?_, .inr rfl⟩
      simp

/-- C7: `Unlink` fails with not-linked when the id has no manifest
entry, leaving the state untouched; on a linked id (manifest persistence
healthy, password retrieval succeeding, directories with unique names)
it removes the symlink at the target path, the spawned file and the
manifest entry — silently tolerating either file being already gone —
and reports nothing-to-clean-up exactly when neither the symlink nor the
spawned file existed. -/
theorem unlink_spec (s : FS) (id promptPw : String) (f : FailSpec)
    (now ss ns ss2 ns2 : Nat)
    (hload : f.loadManifestFail = false) (hsave : f.saveManifestFail = false)
    (hmnd : (s.manifest.map Prod.fst).Nodup)
    (hsnd : (s.spawned.map Prod.fst).Nodup)
    (htnd : (s.targets.map Prod.fst).Nodup)
    (hpw : (GetPasswordWithVerification s.keyFile s.cache promptPw ss ns).1.isOk = true) :
    (lookupA id s.manifest = none →
      Unlink s id promptPw f now ss ns ss2 ns2 = (.error .notLinked, s)) ∧
    (∀ entry, lookupA id s.manifest = some entry →
      lookupA id (Unlink s id promptPw f now ss ns ss2 ns2).2.manifest = none ∧
        lookupA entry.path (Unlink s id promptPw f now ss ns ss2 ns2).2.targets = none ∧
        lookupA id (Unlink s id promptPw f now ss ns ss2 ns2).2.spawned = none ∧
        ((Unlink s id promptPw f now ss ns ss2 ns2).1 = .error .nothingToCleanUp ↔
          (lookupA entry.path s.targets = none ∧ lookupA id s.spawned = none)) ∧
        ((Unlink s id promptPw f now ss ns ss2 ns2).1 = .ok () ∨
          (Unlink s id promptPw f now ss ns ss2 ns2).1 = .error .nothingToCleanUp)) := by
  constructor
  · intro hm
    unfold Unlink
    simp [hload, hm]
  · intro entry hm
    have hok := unlinkSyncPhase_ok s id promptPw f now ss ns ss2 ns2 hpw
    have hU : Unlink s id promptPw f now ss ns ss2 ns2 =
        unlinkCleanupPhase (unlinkSyncPhase s id promptPw f now ss ns ss2 ns2).2
          id entry f := by
      unfold Unlink
      simp [hload, hm, hok]
    have hfr := unlinkSyncPhase_frame s id promptPw f now ss ns ss2 ns2
    rw [hU]
    exact unlinkCleanupPhase_spec s _ id entry f hload hsave hmnd hsnd htnd
      hfr.1 hfr.2.1 hfr.2.2

/-- C7 witness: a concrete linked id with both the symlink and the
spawned file present is fully cleaned up and reports success; the
nothing-to-clean-up characterization holds. -/
theorem unlink_spec_witness :
    ((FailSpec.noFail.loadManifestFail = false) ∧ (FailSpec.noFail.saveManifestFail = false)) ∧
    (lookupA "abc"
        (Unlink
          (FS.mk
            [("abc", ⟨randBytes 16 1, randBytes 12 2,
              ⟨⟨"pw", randBytes 16 1⟩, randBytes 12 2,
                .item ⟨"T", [], .text, 0, 0, "", none, "A"⟩⟩⟩)]
            none none
            (some ⟨randBytes 16 5, randBytes 12 6,
              ⟨⟨"pw", randBytes 16 5⟩, randBytes 12 6, VerificationContent⟩⟩)
            none none [("abc", ⟨"/tmp/t", hashStr "A"⟩)] [("abc", "A")]
            [("/tmp/t", ".spawned/abc")] ["/tmp"] [] [] "pw")
          "abc" "pw" .noFail 9 3 4 7 8).2.manifest = none) ∧
    (lookupA "abc"
        (Unlink
          (FS.mk
            [("abc", ⟨randBytes 16 1, randBytes 12 2,
              ⟨⟨"pw", randBytes 16 1⟩, randBytes 12 2,
                .item ⟨"T", [], .text, 0, 0, "", none, "A"⟩⟩⟩)]
            none none
            (some ⟨randBytes 16 5, randBytes 12 6,
              ⟨⟨"pw", randBytes 16 5⟩, randBytes 12 6, VerificationContent⟩⟩)
            none none [("abc", ⟨"/tmp/t", hashStr "A"⟩)] [("abc", "A")]
            [("/tmp/t", ".spawned/abc")] ["/tmp"] [] [] "pw")
          "abc" "pw" .noFail 9 3 4 7 8).2.spawned = none) ∧
    ((Unlink
        (FS.mk
          [("abc", ⟨randBytes 16 1, randBytes 12 2,
            ⟨⟨"pw", randBytes 16 1⟩, randBytes 12 2,
              .item ⟨"T", [], .text, 0, 0, "", none, "A"⟩⟩⟩)]
          none none
          (some ⟨randBytes 16 5, randBytes 12 6,
            ⟨⟨"pw", randBytes 16 5⟩, randBytes 12 6, VerificationContent⟩⟩)
          none none [("abc", ⟨"/tmp/t", hashStr "A"⟩)] [("abc", "A")]
          [("/tmp/t", ".spawned/abc")] ["/tmp"] [] [] "pw")
        "abc" "pw" .noFail 9 3 4 7 8).1 = .ok ()) := by
  have h := unlink_spec
    (FS.mk
      [("abc", ⟨randBytes 16 1, randBytes 12 2,
        ⟨⟨"pw", randBytes 16 1⟩, randBytes 12 2,
          .item ⟨"T", [], .text, 0, 0, "", none, "A"⟩⟩⟩)]
      none none
      (some ⟨randBytes 16 5, randBytes 12 6,
        ⟨⟨"pw", randBytes 16 5⟩, randBytes 12 6, VerificationContent⟩⟩)
      none none [("abc", ⟨"/tmp/t", hashStr "A"⟩)] [("abc", "A")]
      [("/tmp/t", ".spawned/abc")] ["/tmp"] [] [] "pw")
    "abc" "pw" .noFail 9 3 4 7 8 (by decide) (by decide) (by decide) (by decide)
    (by decide) (by decide)
  have h2 := h.2 ⟨"/tmp/t", hashStr "A"⟩ (by decide)
  refine ⟨⟨by decide, by decide⟩, h2.1, h2.2.2.1, ?_⟩
  rcases h2.2.2.2.2 with hok | hbad
  · exact hok
  · have := h2.2.2.2.1.mp hbad
    simp at this
    exact absurd this.1 (by decide)

/-! ### C5 -/

/-- A healthy vault: item "abc" exists, is linked with matching hash,
and its symlink and spawned file are in place. -/
def selfhealExampleState : FS :=
  FS.mk
    [("abc", ⟨randBytes 16 1, randBytes 12 2,
      ⟨⟨"pw", randBytes 16 1⟩, randBytes 12 2,
        .item ⟨"T", [], .text, 0, 0, "", none, "A"⟩⟩⟩)]
    none none
    (some ⟨randBytes 16 5, randBytes 12 6,
      ⟨⟨"pw", randBytes 16 5⟩, randBytes 12 6, VerificationContent⟩⟩)
    none none [("abc", ⟨"/tmp/t", hashStr "A"⟩)] [("abc", "A")]
    [("/tmp/t", ".spawned/abc")] ["/tmp"] [] [] "pw"

/-- C5 (violation witness): the self-heal pass unlinks a manifest entry
whose backing encrypted item still exists — the entry, its spawned file
and its symlink are all removed although the item is still present —
contradicting the claim that such entries are left intact. -/
theorem selfheal_unlinks_healthy_entry :
    (lookupA "abc" selfhealExampleState.items).isSome = true ∧
      lookupA "abc" selfhealExampleState.manifest = some ⟨"/tmp/t", hashStr "A"⟩ ∧
      lookupA "abc"
        (cleanupOrphanedLinks selfhealExampleState "pw" .noFail 9 3 4 7 8).manifest = none ∧
      lookupA "abc"
        (cleanupOrphanedLinks selfhealExampleState "pw" .noFail 9 3 4 7 8).spawned = none ∧
      lookupA "/tmp/t"
        (cleanupOrphanedLinks selfhealExampleState "pw" .noFail 9 3 4 7 8).targets = none ∧
      (lookupA "abc"
        (cleanupOrphanedLinks selfhealExampleState "pw" .noFail 9 3 4 7 8).items).isSome
        = true := by
  decide

/-! ## Password rotation (`HandlePasswd`, part_011) -/

inductive PwdErr where
  | verifyFailed
  | samePassword
  | decryptItemFailed (id : String)
  | encodeFailed (id : String)
  | encryptItemFailed (id : String)
  | writeItemFailed (id : String)
  | readTmpDirFailed
  | countMismatch
  | keyEncryptFailed
  | keyWriteFailed
  | backupItemsFailed
  | activateItemsFailed
  | activateKeyFailed
  | updateKeyEncryptFailed
  | updateKeyWriteFailed
  | updateKeyBackupFailed
  | updateKeyActivateFailed
deriving DecidableEq, Repr

/-- The failure kinds the claim enumerates as occurring before the
atomic directory swap: a decryption failure while loading an item, an
encode/re-encrypt/write failure for an item bound for the temporary
directory, and the file-count mismatch. -/
def isPreSwapFailure : PwdErr → Bool
  | .decryptItemFailed _ => true
  | .encodeFailed _ => true
  | .encryptItemFailed _ => true
  | .writeItemFailed _ => true
  | .countMismatch => true
  | _ => false

/-- The all-or-nothing read phase of `HandlePasswd`: decrypt every item
with the current password (through the session-cache semantics of
`Decrypt`), stopping at the first failure with the offending id. -/
def loadAllItems : List (String × Envelope) → String → String →
    Except String (List (String × Item)) × String
  | [], _, cache => (.ok [], cache)
  | (id, env) :: rest, pw, cache =>
    match Decrypt env pw cache with
    | (.error _, c2) => (.error id, c2)
    | (.ok (.str _), c2) => (.error id, c2)
    | (.ok (.item it), c2) =>
      match loadAllItems rest pw c2 with
      | (.ok l, c3) => (.ok ((id, it) :: l), c3)
      | (.error i, c3) => (.error i, c3)

/-- The re-encryption loop of `HandlePasswd`: encode, encrypt under the
new password and write each item into `items.tmp`, stopping at the first
failure. -/
def writeTmpItems : List (String × Item) → String → FailSpec → Nat → Nat →
    Except PwdErr (List (String × Envelope))
  | [], _, _, _, _ => .ok []
  | (id, it) :: rest, newPw, f, seeds, i =>
    if f.encodeFailIdxs.contains i then .error (.encodeFailed id)
    else
      match Encrypt (.item it) newPw (seeds + 2 * i) (seeds + 2 * i + 1) with
      | .error _ => .error (.encryptItemFailed id)
      | .ok env =>
        if f.writeItemFailIdxs.contains i then .error (.writeItemFailed id)
        else
          match writeTmpItems rest newPw f seeds (i + 1) with
          | .ok l => .ok ((id, env) :: l)
          | .error e => .error e

/-- `updatePasswordVerification` (part_011): re-encrypt the verification
content under the new password into a temporary key file and swap it in
with the backup/rename/restore pattern. -/
def updatePasswordVerification (s : FS) (newPassword : String) (f : FailSpec)
    (ss ns : Nat) : Except PwdErr Unit × FS :=
  match Encrypt VerificationContent newPassword ss ns with
  | .error _ => (.error .updateKeyEncryptFailed, s)
  | .ok envK =>
    if f.keyTmpWriteFail then (.error .updateKeyWriteFailed, s)
    else if f.renameKeyBackupFail then
      (.error .updateKeyBackupFailed, { s with keyTmp := none })
    else if f.renameKeyFail then
      (.error .updateKeyActivateFailed,
        { s with keyTmp := some envK, keyOld := none })
    else
      (.ok (), { s with keyFile := some envK, keyTmp := none, keyOld := none,
                        cache := newPassword })

/-- The verification-file swap after a successful item swap
(`HandlePasswd` steps 12–14): back up `.dredge-key` (failure is only a
warning), activate the new key (failure restores the backup), then
delete backups and cache the new password. -/
def handleKeySwap (s : FS) (newPassword : String) (f : FailSpec) :
    Except PwdErr Unit × FS :=
  let s₇ := if f.renameKeyBackupFail then s
            else { s with keyOld := s.keyFile, keyFile := none }
  if f.renameKeyFail then
    (.error .activateKeyFailed,
      match s₇.keyOld with
      | some k => { s₇ with keyFile := some k, keyOld := none }
      | none => s₇)
  else
    (.ok (), { s₇ with keyFile := s₇.keyTmp, keyTmp := none, oldItems := none,
                       keyOld := none, cache := newPassword })

/-- `commands.HandlePasswd` (part_011): verify the current password,
reject an unchanged password, load every item, re-encrypt into a fresh
temporary directory, sanity-check the file count, write the new
verification key, atomically swap the items directory and then the key
file, and cache the new password.  Every failure before the swap
discards the temporary directory. -/
def HandlePasswd (s : FS) (currentPassword newPassword : String) (f : FailSpec)
    (seeds : Nat) : Except PwdErr Unit × FS :=
  match VerifyPassword currentPassword s.keyFile s.cache with
  | (.error _, c1) => (.error .verifyFailed, { s with cache := c1 })
  | (.ok _, c1) =>
    if newPassword = currentPassword then (.error .samePassword, { s with cache := c1 })
    else if s.items.isEmpty then
      updatePasswordVerification { s with cache := c1 } newPassword f seeds (seeds + 1)
    else
      match loadAllItems s.items currentPassword c1 with
      | (.error id, c2) => (.error (.decryptItemFailed id), { s with cache := c2 })
      | (.ok loaded, c2) =>
        match writeTmpItems loaded newPassword f (seeds + 2) 0 with
        | .error e => (.error e, { s with cache := c2, tmpItems := none, oldItems := none })
        | .ok tmpList =>
          if f.readTmpDirFail then
            (.error .readTmpDirFailed,
              { s with cache := c2, tmpItems := none, oldItems := none })
          else if f.tmpCountOverride.getD tmpList.length ≠ s.items.length then
            (.error .countMismatch,
              { s with cache := c2, tmpItems := none, oldItems := none })
          else
            match Encrypt VerificationContent newPassword seeds (seeds + 1) with
            | .error _ =>
              (.error .keyEncryptFailed,
                { s with cache := c2, tmpItems := none, oldItems := none })
            | .ok envK =>
              if f.keyTmpWriteFail then
                (.error .keyWriteFailed,
                  { s with cache := c2, tmpItems := none, oldItems := none })
              else if f.renameItemsFail then
                (.error .backupItemsFailed,
                  { s with cache := c2, tmpItems := none, oldItems := none,
                           keyTmp := none })
              else if f.renameTmpFail then
                (.error .activateItemsFailed,
                  { s with cache := c2, tmpItems := some tmpList, oldItems := none,
                           keyTmp := none })
              else
                handleKeySwap
                  { s with cache := c2, items := tmpList, tmpItems := none,
                           oldItems := some s.items, keyTmp := some envK }
                  newPassword f

/-! ### C1 -/

theorem updatePasswordVerification_err_tag (s : FS) (newPassword : String)
    (f : FailSpec) (ss ns : Nat) (e : PwdErr)
    (h : (updatePasswordVerification s newPassword f ss ns).1 = .error e) :
    isPreSwapFailure e = false := by
  unfold updatePasswordVerification at h
  repeat' split at h
  all_goals simp_all [isPreSwapFailure]
  all_goals rw [← h]

theorem handleKeySwap_err_tag (s : FS) (newPassword : String) (f : FailSpec)
    (e : PwdErr) (h : (handleKeySwap s newPassword f).1 = .error e) :
    e = .activateKeyFailed := by
  unfold handleKeySwap at h
  repeat' split at h
  all_goals simp_all

/-- C1: whenever password rotation fails with one of the pre-swap
failure kinds — a decryption failure while loading an item, an encoding,
re-encryption or write failure for the temporary directory, or the
file-count mismatch — it returns that error with the temporary directory
discarded and the live items directory and the verification file exactly
as before the call. -/
theorem rotation_preswap_failure_preserves_vault (s : FS)
    (currentPassword newPassword : String) (f : FailSpec) (seeds : Nat) (e : PwdErr)
    (htmp : s.tmpItems = none)
    (herr : (HandlePasswd s currentPassword newPassword f seeds).1 = .error e)
    (hpre : isPreSwapFailure e = true) :
    (HandlePasswd s currentPassword newPassword f seeds).2.items = s.items ∧
      (HandlePasswd s currentPassword newPassword f seeds).2.keyFile = s.keyFile ∧
      (HandlePasswd s currentPassword newPassword f seeds).2.tmpItems = none := by
  unfold HandlePasswd at herr ⊢
  rcases hv : VerifyPassword currentPassword s.keyFile s.cache with ⟨rv, c1⟩
  simp only [hv] at herr ⊢
  cases rv with
  | error ve =>
    simp at herr
    rw [← herr] at hpre
    simp [isPreSwapFailure] at hpre
  | ok u =>
    dsimp only at herr ⊢
    by_cases hsame : newPassword = currentPassword
    · rw [if_pos hsame] at herr
      simp at herr
      rw [← herr] at hpre
      simp [isPreSwapFailure] at hpre
    · rw [if_neg hsame] at herr ⊢
      by_cases hemp : s.items.isEmpty
      · rw [if_pos hemp] at herr ⊢
        have := updatePasswordVerification_err_tag _ newPassword f seeds (seeds + 1) e herr
        rw [this] at hpre
        cases hpre
      · rw [if_neg hemp] at herr ⊢
        rcases hl : loadAllItems s.items currentPassword c1 with ⟨rl, c2⟩
        simp only [hl] at herr ⊢
        cases rl with
        | error badId => simp [htmp]
        | ok loaded =>
          dsimp only at herr ⊢
          cases hw : writeTmpItems loaded newPassword f (seeds + 2) 0 with
          | error e2 =>
            simp only [hw] at herr ⊢
            simp
          | ok tmpList =>
            simp only [hw] at herr ⊢
            by_cases hrd : f.readTmpDirFail
            · rw [if_pos hrd] at herr ⊢
              simp
            · rw [if_neg hrd] at herr ⊢
              by_cases hcnt : f.tmpCountOverride.getD tmpList.length ≠ s.items.length
              · rw [if_pos hcnt] at herr ⊢
                simp
              · rw [if_neg hcnt] at herr ⊢
                cases hk : Encrypt VerificationContent newPassword seeds (seeds + 1) with
                | error ke =>
                  simp only [hk] at herr ⊢
                  simp
                | ok envK =>
                  simp only [hk] at herr ⊢
                  by_cases hkw : f.keyTmpWriteFail
                  · rw [if_pos hkw] at herr ⊢
                    simp
                  · rw [if_neg hkw] at herr ⊢
                    by_cases hri : f.renameItemsFail
                    · rw [if_pos hri] at herr ⊢
                      simp
                    · rw [if_neg hri] at herr ⊢
                      by_cases hrt : f.renameTmpFail
                      · rw [if_pos hrt] at herr
                        simp at herr
                        rw [← herr] at hpre
                        simp [isPreSwapFailure] at hpre
                      · rw [if_neg hrt] at herr
                        have := handleKeySwap_err_tag _ newPassword f e herr
                        rw [this] at hpre
                        cases hpre

/-- C1 witness: one item encrypted under a different password than the
current one makes the read phase fail; the live item, the verification
file and the (absent) temporary directory are untouched. -/
theorem rotation_preswap_failure_preserves_vault_witness :
    ((FS.mk
        [("i1", ⟨randBytes 16 1, randBytes 12 2,
          ⟨⟨"b", randBytes 16 1⟩, randBytes 12 2,
            .item ⟨"T", [], .text, 0, 0, "", none, "x"⟩⟩⟩)]
        none none
        (some ⟨randBytes 16 5, randBytes 12 6,
          ⟨⟨"a", randBytes 16 5⟩, randBytes 12 6, VerificationContent⟩⟩)
        none none [] [] [] [] [] [] "").tmpItems = none) ∧
    ((HandlePasswd
        (FS.mk
          [("i1", ⟨randBytes 16 1, randBytes 12 2,
            ⟨⟨"b", randBytes 16 1⟩, randBytes 12 2,
              .item ⟨"T", [], .text, 0, 0, "", none, "x"⟩⟩⟩)]
          none none
          (some ⟨randBytes 16 5, randBytes 12 6,
            ⟨⟨"a", randBytes 16 5⟩, randBytes 12 6, VerificationContent⟩⟩)
          none none [] [] [] [] [] [] "")
        "a" "c" .noFail 11).1 = .error (.decryptItemFailed "i1")) ∧
    (isPreSwapFailure (.decryptItemFailed "i1") = true) ∧
    ((HandlePasswd
        (FS.mk
          [("i1", ⟨randBytes 16 1, randBytes 12 2,
            ⟨⟨"b", randBytes 16 1⟩, randBytes 12 2,
              .item ⟨"T", [], .text, 0, 0, "", none, "x"⟩⟩⟩)]
          none none
          (some ⟨randBytes 16 5, randBytes 12 6,
            ⟨⟨"a", randBytes 16 5⟩, randBytes 12 6, VerificationContent⟩⟩)
          none none [] [] [] [] [] [] "")
        "a" "c" .noFail 11).2.items =
      [("i1", ⟨randBytes 16 1, randBytes 12 2,
        ⟨⟨"b", randBytes 16 1⟩, randBytes 12 2,
          .item ⟨"T", [], .text, 0, 0, "", none, "x"⟩⟩⟩)]) ∧
    ((HandlePasswd
        (FS.mk
          [("i1", ⟨randBytes 16 1, randBytes 12 2,
            ⟨⟨"b", randBytes 16 1⟩, randBytes 12 2,
              .item ⟨"T", [], .text, 0, 0, "", none, "x"⟩⟩⟩)]
          none none
          (some ⟨randBytes 16 5, randBytes 12 6,
            ⟨⟨"a", randBytes 16 5⟩, randBytes 12 6, VerificationContent⟩⟩)
          none none [] [] [] [] [] [] "")
        "a" "c" .noFail 11).2.keyFile =
      some ⟨randBytes 16 5, randBytes 12 6,
        ⟨⟨"a", randBytes 16 5⟩, randBytes 12 6, VerificationContent⟩⟩) ∧
    ((HandlePasswd
        (FS.mk
          [("i1", ⟨randBytes 16 1, randBytes 12 2,
            ⟨⟨"b", randBytes 16 1⟩, randBytes 12 2,
              .item ⟨"T", [], .text, 0, 0, "", none, "x"⟩⟩⟩)]
          none none
          (some ⟨randBytes 16 5, randBytes 12 6,
            ⟨⟨"a", randBytes 16 5⟩, randBytes 12 6, VerificationContent⟩⟩)
          none none [] [] [] [] [] [] "")
        "a" "c" .noFail 11).2.tmpItems = none) := by
  have h := rotation_preswap_failure_preserves_vault
    (FS.mk
      [("i1", ⟨randBytes 16 1, randBytes 12 2,
        ⟨⟨"b", randBytes 16 1⟩, randBytes 12 2,
          .item ⟨"T", [], .text, 0, 0, "", none, "x"⟩⟩⟩)]
      none none
      (some ⟨randBytes 16 5, randBytes 12 6,
        ⟨⟨"a", randBytes 16 5⟩, randBytes 12 6, VerificationContent⟩⟩)
      none none [] [] [] [] [] [] "")
    "a" "c" .noFail 11 (.decryptItemFailed "i1") (by decide) (by decide) (by decide)
  exact ⟨by decide, by decide, by decide, h.1, h.2.1, h.2.2⟩

end Dredge
